import Mathlib

/-!
Verification of the waxosuit host bootstrap (`waxosuit-host/src/bin/waxosuit.rs`).

The binary's bootstrap sequence is embedded shallowly: every external
effect (reading the artifact, `wascap` extraction and validation, the
HTTP POST to the policy service, the directory scan, dynamic plugin
loading, starting the multiplexer) is represented by an `Env` oracle
supplying its result, and each function of the binary is translated to a
pure Lean function that returns the list of observable events it emits
together with its result.  The process-wide capability registry
(`CAPMAN`) is threaded explicitly as a `CapMan` value.
-/

namespace Waxosuit

/-- Command-line arguments of the binary (struct `Cli` in the source).
`port` and `sink` are parsed but unused by the bootstrap itself. -/
structure Cli where
  input : String
  caps_dir : String
  opa_url : Option String
  port : Nat
  sink : Option String
deriving Repr, DecidableEq

/-- The decoded signed claims (`wascap::jwt::Claims`); the bootstrap
only inspects the optional capability list `caps`. -/
structure Claims where
  caps : Option (List String)
deriving Repr, DecidableEq

/-- A token extracted from the artifact (`wascap::jwt::Token`): the raw
JWT string plus its decoded claims. -/
structure Token where
  jwt : String
  claims : Claims
deriving Repr, DecidableEq

/-- Result of `wascap::jwt::validate_token`: the temporal flags and the
human-readable instants the binary reports. -/
structure TokenValidation where
  expired : Bool
  cannot_use_yet : Bool
  not_before_human : String
  expires_human : String
deriving Repr, DecidableEq

/-- An HTTP response as seen through `reqwest`: a status code and the
result of reading the body text (reading can itself fail). -/
structure HttpResponse where
  status : Nat
  text : Except String String
deriving Repr

/-- One entry of the capability-provider directory as reported by
`read_dir`: its path, whether it is a subdirectory, and the file
extension `std::path::Path::extension` reports for it. -/
structure DirEntry where
  path : String
  isDir : Bool
  extension : Option String
deriving Repr, DecidableEq

/-- Modelled from the spec: the process-wide Capability Registry
(`CAPMAN` of the `waxosuit_host::capabilities` module, whose source is
not part of this binary).  Per the spec it holds at most one accepted
manifest and the set of loaded provider identifiers; `load_plugin`
either inserts a provider handle and returns its capability id, or
fails leaving the registry unchanged. -/
structure CapMan where
  claims : Option Claims
  providers : List String
deriving Repr, DecidableEq

/-- The registry at process start: no manifest published, no providers. -/
def capman0 : CapMan := { claims := none, providers := [] }

/-- Error values of `waxosuit_host::Result`, restricted to the
constructors the binary produces or propagates. -/
inductive WErr where
  | wascapViolation (msg : String)
  | httpClientFailure
  | bodyReadFailure (msg : String)
  | jsonDecodeFailure (msg : String)
  | validationFailure (msg : String)
  | extractionFailure (msg : String)
deriving Repr, DecidableEq

/-- How the process run ends at the process boundary: `ok` is a normal
return of `Ok(())` (exit code zero), `err` a returned error (non-zero),
`panicked` an uncaught panic (non-zero), and `parked` the success path
that blocks forever on `std::thread::park()` and never exits. -/
inductive Outcome where
  | ok
  | err (e : WErr)
  | panicked (msg : String)
  | parked
deriving Repr, DecidableEq

/-- Whether an outcome is a non-zero-equivalent result delivered to the
process boundary. -/
def Outcome.nonZeroEquiv : Outcome → Bool
  | .err _ => true
  | .panicked _ => true
  | .ok => false
  | .parked => false

/-- Observable events of the bootstrap, in program order: writes to the
error stream (`eprint!`), info-level log lines (`info!`), the policy
POST, mutations of the capability registry, provider-load attempts, the
start of the execution host, and the final park.  `logSkip` is the
vocabulary for a logged skip/ignore message about a non-library file;
it is part of the observation language so that its presence or absence
can be stated. -/
inductive Event where
  | eprintUnusable (instant : String)
  | eprintExpired (instant : String)
  | eprintNoSignature
  | eprintExtractError (msg : String)
  | httpPost (url : String) (token : String)
  | infoOpaPassed
  | infoOpaDenied
  | setClaims (c : Claims)
  | loadAttempt (path : String)
  | infoLoaded (capid : String)
  | infoNotLoaded (msg : String)
  | logSkip (path : String)
  | infoStarting
  | hostStarted
  | park
deriving Repr, DecidableEq

/-- Boolean recognizer for provider-load attempts. -/
def Event.isLoadAttempt : Event → Bool
  | .loadAttempt _ => true
  | _ => false

/-- Boolean recognizer for logged provider-load failures. -/
def Event.isNotLoaded : Event → Bool
  | .infoNotLoaded _ => true
  | _ => false

/-- Boolean recognizer for logged skip/ignore messages. -/
def Event.isLogSkip : Event → Bool
  | .logSkip _ => true
  | _ => false

/-- Boolean recognizer for the host-start event. -/
def Event.isHostStarted : Event → Bool
  | .hostStarted => true
  | _ => false

/-- Boolean recognizer for manifest publication to the registry. -/
def Event.isSetClaims : Event → Bool
  | .setClaims _ => true
  | _ => false

/-- The environment oracle: results of every external interaction the
bootstrap performs, in the order the source consults them. -/
structure Env where
  /-- Result of `wascap::wasm::extract_claims(&buf)`. -/
  extract_claims : Except String (Option Token)
  /-- Result of `wascap::jwt::validate_token(&token.jwt)`. -/
  validate_token : Except String TokenValidation
  /-- Result of `client.post(&url).json(&opapost).send()`: `none` is a
  network/transport failure, `some` a delivered response. -/
  send : Option HttpResponse
  /-- Result of `serde_json::from_str::<OpaReply>` on a body: the
  decoded `allow` field, or a decode error. -/
  decode_opa : String → Except String Bool
  /-- Result of `caps_dir.is_dir()`. -/
  caps_dir_is_dir : Bool
  /-- Entries yielded by `read_dir(caps_dir)`. -/
  read_dir : List DirEntry
  /-- Result of `capman.load_plugin(path)`: the capability id on
  success, or a load error message. -/
  load_plugin : String → Except String String
  /-- Result of `lock.start_mux(...)`. -/
  start_mux : Except String Unit

/-- Translation of `post_json`: POST the token to the policy URL and
classify the result.  The body text is read before the status check;
only status exactly 200 returns the raw body. -/
def post_json (env : Env) (url : String) (token : String) :
    List Event × Except WErr String :=
  match env.send with
  | none => ([Event.httpPost url token], .error WErr.httpClientFailure)
  | some response =>
    match response.text with
    | .error e => ([Event.httpPost url token], .error (WErr.bodyReadFailure e))
    | .ok raw =>
      if response.status = 200 then
        ([Event.httpPost url token], .ok raw)
      else
        ([Event.httpPost url token],
          .error (WErr.wascapViolation "Open Policy Agent did not return 200 OK"))

/-- Translation of `check_token_with_opa`: with no policy URL configured
succeed immediately with no network call; otherwise POST the JWT, decode
the reply, and accept or reject on its `allow` field. -/
def check_token_with_opa (env : Env) (args : Cli) (jwt : String) :
    List Event × Except WErr Unit :=
  match args.opa_url with
  | none => ([], .ok ())
  | some url =>
    match post_json env url jwt with
    | (tr, .error e) => (tr, .error e)
    | (tr, .ok postresult) =>
      match env.decode_opa postresult with
      | .error e => (tr, .error (WErr.jsonDecodeFailure e))
      | .ok allow =>
        if allow then
          (tr ++ [Event.infoOpaPassed], .ok ())
        else
          (tr ++ [Event.infoOpaDenied],
            .error (WErr.wascapViolation "OPA denied this module"))

/-- One iteration of the `add_capabilities` loop body: subdirectories
are skipped, files with extension `dylib` or `so` are load attempts
whose success or failure is logged, and every other extension falls to
the empty match arm (no event at all). -/
def scan_entry (env : Env) (cm : CapMan) (e : DirEntry) :
    List Event × CapMan :=
  if e.isDir then ([], cm)
  else
    match e.extension with
    | some ext =>
      if ext = "dylib" ∨ ext = "so" then
        match env.load_plugin e.path with
        | .ok capid =>
          ([Event.loadAttempt e.path, Event.infoLoaded capid],
            { cm with providers := cm.providers ++ [capid] })
        | .error m => ([Event.loadAttempt e.path, Event.infoNotLoaded m], cm)
      else ([], cm)
    | none => ([], cm)

/-- The `add_capabilities` loop over the directory entries in order. -/
def scan_entries (env : Env) (cm : CapMan) : List DirEntry → List Event × CapMan
  | [] => ([], cm)
  | e :: rest =>
    match scan_entry env cm e with
    | (tr, cm') =>
      match scan_entries env cm' rest with
      | (tr2, cm'') => (tr ++ tr2, cm'')

/-- Translation of `start`: publish the claims to the registry, load
capability providers from the directory (panicking if it is not a
directory), log the start, hand the module to `start_mux`, and park the
thread forever on success; a `start_mux` error propagates to the
`.unwrap()` in `main`, i.e. a panic. -/
def start (env : Env) (c : Claims) : List Event × CapMan × Outcome :=
  let cm0 : CapMan := { capman0 with claims := some c }
  if env.caps_dir_is_dir then
    match scan_entries env cm0 env.read_dir with
    | (tr1, cm1) =>
      match env.start_mux with
      | .ok _ =>
        (Event.setClaims c :: tr1 ++ [Event.infoStarting, Event.hostStarted, Event.park],
          cm1, Outcome.parked)
      | .error m =>
        (Event.setClaims c :: tr1 ++ [Event.infoStarting], cm1, Outcome.panicked m)
  else
    ([Event.setClaims c], cm0,
      Outcome.panicked "Capability plugin location is not a directory.")

/-- Translation of `main`: extract the claims, validate the token,
reject temporally unusable tokens with an `eprint!` (returning
`Ok(())`), consult the policy service, and start the host.  `Ok(None)`
and extraction errors also end the run before any of that. -/
def main (env : Env) (args : Cli) : List Event × CapMan × Outcome :=
  match env.extract_claims with
  | .ok (some token) =>
    match env.validate_token with
    | .error e => ([], capman0, .err (WErr.validationFailure e))
    | .ok validate_res =>
      if validate_res.cannot_use_yet then
        ([Event.eprintUnusable validate_res.not_before_human], capman0, .ok)
      else if validate_res.expired then
        ([Event.eprintExpired validate_res.expires_human], capman0, .ok)
      else
        match check_token_with_opa env args token.jwt with
        | (tr1, .error e) => (tr1, capman0, .err e)
        | (tr1, .ok _) =>
          match start env token.claims with
          | (tr2, cm, out) => (tr1 ++ tr2, cm, out)
  | .ok none => ([Event.eprintNoSignature], capman0, .ok)
  | .error e => ([Event.eprintExtractError e], capman0, .err (WErr.extractionFailure e))

/-- Whether a directory entry is a candidate provider file: a
non-directory whose extension is `dylib` or `so`. -/
def isLib (e : DirEntry) : Bool :=
  if e.isDir then false
  else
    match e.extension with
    | some ext => if ext = "dylib" ∨ ext = "so" then true else false
    | none => false

/-- Whether loading the plugin at an entry's path succeeds. -/
def loadOk (env : Env) (e : DirEntry) : Bool :=
  match env.load_plugin e.path with
  | .ok _ => true
  | .error _ => false

theorem post_json_trace (env : Env) (url token : String) :
    (post_json env url token).1 = [Event.httpPost url token] := by
  unfold post_json
  rcases h : env.send with _ | response
  · simp
  · rcases ht : response.text with e | raw
    · simp [ht]
    · by_cases hs : response.status = 200 <;> simp [ht, hs]

theorem opa_trace_shape (env : Env) (args : Cli) (jwt : String) :
    ∀ e ∈ (check_token_with_opa env args jwt).1,
      (∃ u t, e = Event.httpPost u t) ∨ e = Event.infoOpaPassed ∨
        e = Event.infoOpaDenied := by
  rcases hu : args.opa_url with _ | url
  · simp [check_token_with_opa, hu]
  · rcases hpj : post_json env url jwt with ⟨tr, res⟩
    have htr : tr = [Event.httpPost url jwt] := by
      have h := post_json_trace env url jwt
      rw [hpj] at h
      exact h
    subst htr
    cases res with
    | error e => simp [check_token_with_opa, hu, hpj]
    | ok raw =>
      rcases hdec : env.decode_opa raw with e | allow
      · simp [check_token_with_opa, hu, hpj, hdec]
      · cases allow <;> simp [check_token_with_opa, hu, hpj, hdec]

theorem opa_trace_counts (env : Env) (args : Cli) (jwt : String) :
    (check_token_with_opa env args jwt).1.countP Event.isLoadAttempt = 0 ∧
    (check_token_with_opa env args jwt).1.countP Event.isNotLoaded = 0 ∧
    (check_token_with_opa env args jwt).1.countP Event.isLogSkip = 0 ∧
    (check_token_with_opa env args jwt).1.countP Event.isHostStarted = 0 ∧
    (check_token_with_opa env args jwt).1.countP Event.isSetClaims = 0 := by
  refine ⟨?_, ?_, ?_, ?_, ?_⟩ <;>
    · rw [List.countP_eq_zero]
      intro e he
      rcases opa_trace_shape env args jwt e he with ⟨u, t, rfl⟩ | rfl | rfl <;>
        simp [Event.isLoadAttempt, Event.isNotLoaded, Event.isLogSkip,
          Event.isHostStarted, Event.isSetClaims]

theorem scan_entry_counts (env : Env) (cm : CapMan) (e : DirEntry) :
    ((scan_entry env cm e).1.countP Event.isLoadAttempt
        = if isLib e then 1 else 0) ∧
    ((scan_entry env cm e).1.countP Event.isNotLoaded
        = if isLib e && !loadOk env e then 1 else 0) ∧
    ((scan_entry env cm e).1.countP Event.isLogSkip = 0) ∧
    ((scan_entry env cm e).2.providers.length
        = cm.providers.length + if isLib e && loadOk env e then 1 else 0) ∧
    ((scan_entry env cm e).2.claims = cm.claims) ∧
    (∀ ev ∈ (scan_entry env cm e).1,
      (∃ p, ev = Event.loadAttempt p) ∨ (∃ s, ev = Event.infoLoaded s) ∨
        (∃ s, ev = Event.infoNotLoaded s)) := by
  rcases hd : e.isDir
  · rcases hx : e.extension with _ | ext
    · simp [scan_entry, isLib, hd, hx]
    · by_cases hext : ext = "dylib" ∨ ext = "so"
      · rcases hl : env.load_plugin e.path with m | capid <;>
          simp [scan_entry, isLib, loadOk, hd, hx, hext, hl, Event.isLoadAttempt,
            Event.isNotLoaded, Event.isLogSkip, List.countP_cons, List.countP_nil]
      · simp [scan_entry, isLib, hd, hx, hext]
  · simp [scan_entry, isLib, hd]

theorem scan_entries_counts (env : Env) :
    ∀ (l : List DirEntry) (cm : CapMan),
      ((scan_entries env cm l).1.countP Event.isLoadAttempt = l.countP isLib) ∧
      ((scan_entries env cm l).1.countP Event.isNotLoaded
          = l.countP (fun e => isLib e && !loadOk env e)) ∧
      ((scan_entries env cm l).1.countP Event.isLogSkip = 0) ∧
      ((scan_entries env cm l).2.providers.length
          = cm.providers.length + l.countP (fun e => isLib e && loadOk env e)) ∧
      ((scan_entries env cm l).2.claims = cm.claims) ∧
      (∀ ev ∈ (scan_entries env cm l).1,
        (∃ p, ev = Event.loadAttempt p) ∨ (∃ s, ev = Event.infoLoaded s) ∨
          (∃ s, ev = Event.infoNotLoaded s)) := by
  intro l
  induction l with
  | nil => intro cm; simp [scan_entries]
  | cons e rest ih =>
    intro cm
    rcases h1 : scan_entry env cm e with ⟨tr, cm'⟩
    rcases h2 : scan_entries env cm' rest with ⟨tr2, cm''⟩
    have hstep := scan_entry_counts env cm e
    rw [h1] at hstep
    have hrest := ih cm'
    rw [h2] at hrest
    have hgoal : scan_entries env cm (e :: rest) = (tr ++ tr2, cm'') := by
      simp [scan_entries, h1, h2]
    rw [hgoal]
    simp only [List.countP_append, List.countP_cons]
    obtain ⟨a1, a2, a3, a4, a5, a6⟩ := hstep
    obtain ⟨b1, b2, b3, b4, b5, b6⟩ := hrest
    refine ⟨?_, ?_, ?_, ?_, ?_, ?_⟩
    · rw [a1, b1]; omega
    · rw [a2, b2]; omega
    · rw [a3, b3]
    · rw [b4, a4]; omega
    · rw [b5, a5]
    · intro ev hev
      rcases List.mem_append.1 hev with h | h
      · exact a6 ev h
      · exact b6 ev h

theorem main_extract_error (env : Env) (args : Cli) (e : String)
    (hex : env.extract_claims = .error e) :
    main env args =
      ([Event.eprintExtractError e], capman0, .err (WErr.extractionFailure e)) := by
  simp [main, hex]

theorem main_extract_none (env : Env) (args : Cli)
    (hex : env.extract_claims = .ok none) :
    main env args = ([Event.eprintNoSignature], capman0, .ok) := by
  simp [main, hex]

theorem main_validate_error (env : Env) (args : Cli) (t : Token) (e : String)
    (hex : env.extract_claims = .ok (some t))
    (hv : env.validate_token = .error e) :
    main env args = ([], capman0, .err (WErr.validationFailure e)) := by
  simp [main, hex, hv]

theorem main_unusable (env : Env) (args : Cli) (t : Token) (v : TokenValidation)
    (hex : env.extract_claims = .ok (some t))
    (hv : env.validate_token = .ok v)
    (h1 : v.cannot_use_yet = true) :
    main env args = ([Event.eprintUnusable v.not_before_human], capman0, .ok) := by
  simp [main, hex, hv, h1]

theorem main_expired (env : Env) (args : Cli) (t : Token) (v : TokenValidation)
    (hex : env.extract_claims = .ok (some t))
    (hv : env.validate_token = .ok v)
    (h1 : v.cannot_use_yet = false) (h2 : v.expired = true) :
    main env args = ([Event.eprintExpired v.expires_human], capman0, .ok) := by
  simp [main, hex, hv, h1, h2]

theorem main_opa_error (env : Env) (args : Cli) (t : Token) (v : TokenValidation)
    (tr1 : List Event) (e : WErr)
    (hex : env.extract_claims = .ok (some t))
    (hv : env.validate_token = .ok v)
    (h1 : v.cannot_use_yet = false) (h2 : v.expired = false)
    (hopa : check_token_with_opa env args t.jwt = (tr1, .error e)) :
    main env args = (tr1, capman0, .err e) := by
  simp [main, hex, hv, h1, h2, hopa]

theorem main_caps_not_dir (env : Env) (args : Cli) (t : Token) (v : TokenValidation)
    (tr1 : List Event)
    (hex : env.extract_claims = .ok (some t))
    (hv : env.validate_token = .ok v)
    (h1 : v.cannot_use_yet = false) (h2 : v.expired = false)
    (hopa : check_token_with_opa env args t.jwt = (tr1, .ok ()))
    (hdir : env.caps_dir_is_dir = false) :
    main env args = (tr1 ++ [Event.setClaims t.claims],
      { claims := some t.claims, providers := [] },
      Outcome.panicked "Capability plugin location is not a directory.") := by
  simp [main, hex, hv, h1, h2, hopa, start, hdir, capman0]

theorem main_mux_error (env : Env) (args : Cli) (t : Token) (v : TokenValidation)
    (tr1 : List Event) (m : String)
    (hex : env.extract_claims = .ok (some t))
    (hv : env.validate_token = .ok v)
    (h1 : v.cannot_use_yet = false) (h2 : v.expired = false)
    (hopa : check_token_with_opa env args t.jwt = (tr1, .ok ()))
    (hdir : env.caps_dir_is_dir = true)
    (hmux : env.start_mux = .error m) :
    main env args =
      (tr1 ++ Event.setClaims t.claims ::
        ((scan_entries env { claims := some t.claims, providers := [] } env.read_dir).1
          ++ [Event.infoStarting]),
        (scan_entries env { claims := some t.claims, providers := [] } env.read_dir).2,
        Outcome.panicked m) := by
  simp [main, hex, hv, h1, h2, hopa, start, hdir, hmux, capman0]

theorem main_success (env : Env) (args : Cli) (t : Token) (v : TokenValidation)
    (tr1 : List Event)
    (hex : env.extract_claims = .ok (some t))
    (hv : env.validate_token = .ok v)
    (h1 : v.cannot_use_yet = false) (h2 : v.expired = false)
    (hopa : check_token_with_opa env args t.jwt = (tr1, .ok ()))
    (hdir : env.caps_dir_is_dir = true)
    (hmux : env.start_mux = .ok ()) :
    main env args =
      (tr1 ++ Event.setClaims t.claims ::
        ((scan_entries env { claims := some t.claims, providers := [] } env.read_dir).1
          ++ [Event.infoStarting, Event.hostStarted, Event.park]),
        (scan_entries env { claims := some t.claims, providers := [] } env.read_dir).2,
        Outcome.parked) := by
  simp [main, hex, hv, h1, h2, hopa, start, hdir, hmux, capman0]

theorem main_host_started_inv (env : Env) (args : Cli)
    (h : Event.hostStarted ∈ (main env args).1) :
    ∃ t v tr1, env.extract_claims = .ok (some t) ∧ env.validate_token = .ok v ∧
      v.cannot_use_yet = false ∧ v.expired = false ∧
      check_token_with_opa env args t.jwt = (tr1, .ok ()) ∧
      env.caps_dir_is_dir = true ∧ env.start_mux = .ok () := by
  rcases hex : env.extract_claims with e | o
  · rw [main_extract_error env args e hex] at h; simp at h
  · cases o with
    | none => rw [main_extract_none env args hex] at h; simp at h
    | some t =>
      rcases hv : env.validate_token with e | v
      · rw [main_validate_error env args t e hex hv] at h; simp at h
      · rcases h1 : v.cannot_use_yet
        · rcases h2 : v.expired
          · rcases hopa : check_token_with_opa env args t.jwt with ⟨tr1, r1⟩
            have htr1 : ∀ ev ∈ tr1,
                (∃ u s, ev = Event.httpPost u s) ∨ ev = Event.infoOpaPassed ∨
                  ev = Event.infoOpaDenied := by
              have hs := opa_trace_shape env args t.jwt
              rw [hopa] at hs
              exact hs
            have hnostart1 : Event.hostStarted ∉ tr1 := by
              intro hmem
              rcases htr1 _ hmem with ⟨u, s, h'⟩ | h' | h' <;> cases h'
            cases r1 with
            | error e =>
              rw [main_opa_error env args t v tr1 e hex hv h1 h2 hopa] at h
              exact absurd h hnostart1
            | ok u =>
              cases u
              rcases hdir : env.caps_dir_is_dir
              · rw [main_caps_not_dir env args t v tr1 hex hv h1 h2 hopa hdir] at h
                rcases List.mem_append.1 h with h' | h'
                · exact absurd h' hnostart1
                · simp at h'
              · rcases hmux : env.start_mux with m | u
                · rw [main_mux_error env args t v tr1 m hex hv h1 h2 hopa hdir hmux] at h
                  obtain ⟨-, -, -, -, -, hscan⟩ := scan_entries_counts env env.read_dir
                    { claims := some t.claims, providers := [] }
                  rcases List.mem_append.1 h with h' | h'
                  · exact absurd h' hnostart1
                  · rcases List.mem_cons.1 h' with h'' | h''
                    · cases h''
                    · rcases List.mem_append.1 h'' with h3 | h3
                      · rcases hscan _ h3 with ⟨p, h4⟩ | ⟨s, h4⟩ | ⟨s, h4⟩ <;> cases h4
                      · simp at h3
                · cases u
                  exact ⟨t, v, tr1, rfl, rfl, h1, h2, hopa, rfl, rfl⟩
          · rw [main_expired env args t v hex hv h1 h2] at h; simp at h
        · rw [main_unusable env args t v hex hv h1] at h; simp at h

/-- A concrete token used by the concrete scenarios. -/
def tokenA : Token := { jwt := "jwt-a", claims := { caps := some ["messaging", "kv"] } }

/-- A validation verdict with both temporal flags clear. -/
def usableValidation : TokenValidation :=
  { expired := false, cannot_use_yet := false,
    not_before_human := "2019-06-01 00:00:00 UTC", expires_human := "2019-07-01 00:00:00 UTC" }

/-- A baseline environment: a validly signed usable token, no policy
response needed, an empty provider directory, successful loads, and a
successful multiplexer start. -/
def envBase : Env :=
  { extract_claims := .ok (some tokenA),
    validate_token := .ok usableValidation,
    send := none,
    decode_opa := fun s =>
      if s = "allow-true" then .ok true
      else if s = "allow-false" then .ok false
      else .error "invalid type: expected a boolean allow field",
    caps_dir_is_dir := true,
    read_dir := [],
    load_plugin := fun p =>
      if p = "caps/bad.so" then .error "caps/bad.so is not a capability provider"
      else .ok ("wascap:" ++ p),
    start_mux := .ok () }

/-- Baseline command line: artifact, provider directory, no policy URL. -/
def argsBase : Cli :=
  { input := "module.wasm", caps_dir := "caps", opa_url := none, port := 8080, sink := none }

/-- Command line with a policy URL configured. -/
def argsOpa : Cli := { argsBase with opa_url := some "http://opa.local/v1/data/waxosuit" }

/-- Artifact without an embedded capability signature. -/
def envNoSig : Env := { envBase with extract_claims := .ok none }

/-- Artifact whose embedded claims fail extraction. -/
def envExtractErr : Env := { envBase with extract_claims := .error "invalid hash" }

/-- Token whose validation itself errors. -/
def envValidateErr : Env := { envBase with validate_token := .error "token could not be validated" }

/-- Token flagged expired by validation. -/
def envExpired : Env :=
  { envBase with validate_token := .ok { usableValidation with expired := true } }

/-- Token flagged not yet usable by validation. -/
def envUnusable : Env :=
  { envBase with validate_token := .ok { usableValidation with cannot_use_yet := true } }

/-- Token flagged both not yet usable and expired. -/
def envBothFlags : Env :=
  { envBase with
    validate_token := .ok { usableValidation with cannot_use_yet := true, expired := true } }

/-- Policy service reachable, replying 201 with an allow-true body. -/
def env201 : Env := { envBase with send := some { status := 201, text := .ok "allow-true" } }

/-- Policy service replying 200 with an allow-true body. -/
def env200Allowed : Env :=
  { envBase with send := some { status := 200, text := .ok "allow-true" } }

/-- Policy service replying 200 with an allow-false body. -/
def env200Denied : Env :=
  { envBase with send := some { status := 200, text := .ok "allow-false" } }

/-- Policy service replying 200 with a body that does not decode. -/
def env200Malformed : Env :=
  { envBase with send := some { status := 200, text := .ok "not-json" } }

/-- Policy service replying 500. -/
def env500 : Env := { envBase with send := some { status := 500, text := .ok "allow-true" } }

/-- Provider directory with three library files of which exactly one
(`caps/bad.so`) fails to load. -/
def envScanOneBad : Env :=
  { envBase with read_dir :=
      [ { path := "caps/messaging.so", isDir := false, extension := some "so" },
        { path := "caps/bad.so", isDir := false, extension := some "so" },
        { path := "caps/kv.dylib", isDir := false, extension := some "dylib" } ] }

/-- Provider directory with one library file and one non-library file. -/
def envScanMixed : Env :=
  { envBase with read_dir :=
      [ { path := "caps/messaging.so", isDir := false, extension := some "so" },
        { path := "caps/readme.md", isDir := false, extension := some "md" } ] }

/-- Configured provider path that is not a directory. -/
def envNotDir : Env := { envBase with caps_dir_is_dir := false }

/-- C1: for every artifact from which no valid signed manifest is
obtained — extraction returns no token, extraction fails, or token
validation fails — the execution host is never started: no host-start
event occurs anywhere on that path. -/
theorem c1_no_host_without_valid_manifest (env : Env) (args : Cli)
    (h : env.extract_claims = .ok none ∨
      (∃ e, env.extract_claims = .error e) ∨
      (∃ e, env.validate_token = .error e)) :
    Event.hostStarted ∉ (main env args).1 := by
  intro hmem
  obtain ⟨t, v, tr1, hex, hv, -, -, -, -, -⟩ := main_host_started_inv env args hmem
  rcases h with h | ⟨e, h⟩ | ⟨e, h⟩
  · rw [h] at hex; simp at hex
  · rw [h] at hex; simp at hex
  · rw [h] at hv; simp at hv

/-- Witness for C1 at a concrete artifact carrying no signature. -/
theorem c1_no_host_without_valid_manifest_witness :
    Event.hostStarted ∉ (main envNoSig argsBase).1 :=
  c1_no_host_without_valid_manifest envNoSig argsBase (Or.inl rfl)

/-- C2: every execution trace that starts the host publishes the claims
to the registry strictly before any provider-load attempt and finishes
all provider loading strictly before the host start: the trace splits
into a prefix containing no load attempt, the publication, a middle
segment, and then the host start followed only by the park, so no
provider is ever loaded against an unpublished manifest. -/
theorem c2_publish_precedes_load_precedes_start (env : Env) (args : Cli)
    (h : Event.hostStarted ∈ (main env args).1) :
    ∃ pre c mid, (main env args).1
        = pre ++ Event.setClaims c :: (mid ++ [Event.hostStarted, Event.park]) ∧
      (∀ p, Event.loadAttempt p ∉ pre) ∧
      Event.hostStarted ∉ pre ∧ Event.hostStarted ∉ mid := by
  obtain ⟨t, v, tr1, hex, hv, h1, h2, hopa, hdir, hmux⟩ := main_host_started_inv env args h
  have hs := opa_trace_shape env args t.jwt
  rw [hopa] at hs
  refine ⟨tr1, t.claims,
    (scan_entries env { claims := some t.claims, providers := [] } env.read_dir).1
      ++ [Event.infoStarting], ?_, ?_, ?_, ?_⟩
  · rw [main_success env args t v tr1 hex hv h1 h2 hopa hdir hmux]
    simp
  · intro p hp
    rcases hs _ hp with ⟨u, s, h'⟩ | h' | h' <;> cases h'
  · intro hp
    rcases hs _ hp with ⟨u, s, h'⟩ | h' | h' <;> cases h'
  · intro hp
    rcases List.mem_append.1 hp with h3 | h3
    · obtain ⟨-, -, -, -, -, hscan⟩ := scan_entries_counts env env.read_dir
        { claims := some t.claims, providers := [] }
      rcases hscan _ h3 with ⟨p, h4⟩ | ⟨s, h4⟩ | ⟨s, h4⟩ <;> cases h4
    · simp at h3

/-- Witness for C2 at a concrete environment whose run starts the host. -/
theorem c2_publish_precedes_load_precedes_start_witness :
    ∃ pre c mid, (main envBase argsBase).1
        = pre ++ Event.setClaims c :: (mid ++ [Event.hostStarted, Event.park]) ∧
      (∀ p, Event.loadAttempt p ∉ pre) ∧
      Event.hostStarted ∉ pre ∧ Event.hostStarted ∉ mid :=
  c2_publish_precedes_load_precedes_start envBase argsBase (by decide)

/-- C3 counterexample: two bootstrap failure paths — a validly signed
but expired artifact (a temporal rejection) and an artifact carrying no
capability signature (a missing manifest) — print their diagnostic but
then return `Ok(())`, a zero-equivalent result, to the process
boundary, so the claim that every failure path returns a
non-zero-equivalent result is false on both of these categories. -/
theorem c3_counterexample_zero_exit_failure_paths :
    ((main envExpired argsBase).1 = [Event.eprintExpired "2019-07-01 00:00:00 UTC"] ∧
      (main envExpired argsBase).2.2 = Outcome.ok ∧
      Outcome.nonZeroEquiv (main envExpired argsBase).2.2 = false) ∧
    ((main envNoSig argsBase).1 = [Event.eprintNoSignature] ∧
      (main envNoSig argsBase).2.2 = Outcome.ok ∧
      Outcome.nonZeroEquiv (main envNoSig argsBase).2.2 = false) := by
  exact ⟨⟨rfl, rfl, rfl⟩, ⟨rfl, rfl, rfl⟩⟩

/-- C3 amended: on every failure path of the bootstrap — extraction
error, temporal rejection, missing manifest, policy violation,
configuration error — a diagnostic reaches the error stream, but the
result at the process boundary differs by category: extraction errors
print their diagnostic and return a non-zero-equivalent result (`Err`),
policy violations return the violation error to the process boundary
(non-zero), and the configuration error panics (non-zero), while
temporal rejections and missing-manifest paths print their diagnostic
and then return success (a zero-equivalent result). -/
theorem c3_failure_paths_diagnostics_and_results (env : Env) (args : Cli) :
    (∀ e, env.extract_claims = .error e →
      (main env args).1 = [Event.eprintExtractError e] ∧
      Outcome.nonZeroEquiv (main env args).2.2 = true) ∧
    (env.extract_claims = .ok none →
      (main env args).1 = [Event.eprintNoSignature] ∧
      Outcome.nonZeroEquiv (main env args).2.2 = false) ∧
    (∀ t v, env.extract_claims = .ok (some t) → env.validate_token = .ok v →
      (v.cannot_use_yet = true ∨ (v.cannot_use_yet = false ∧ v.expired = true)) →
      ((main env args).1 = [Event.eprintUnusable v.not_before_human] ∨
        (main env args).1 = [Event.eprintExpired v.expires_human]) ∧
      Outcome.nonZeroEquiv (main env args).2.2 = false) ∧
    (∀ t v tr1 e, env.extract_claims = .ok (some t) → env.validate_token = .ok v →
      v.cannot_use_yet = false → v.expired = false →
      check_token_with_opa env args t.jwt = (tr1, .error e) →
      (main env args).2.2 = Outcome.err e ∧
      Outcome.nonZeroEquiv (main env args).2.2 = true) ∧
    (∀ t v tr1, env.extract_claims = .ok (some t) → env.validate_token = .ok v →
      v.cannot_use_yet = false → v.expired = false →
      check_token_with_opa env args t.jwt = (tr1, .ok ()) →
      env.caps_dir_is_dir = false →
      (main env args).2.2
          = Outcome.panicked "Capability plugin location is not a directory." ∧
      Outcome.nonZeroEquiv (main env args).2.2 = true) := by
  refine ⟨?_, ?_, ?_, ?_, ?_⟩
  · intro e hex
    rw [main_extract_error env args e hex]
    exact ⟨rfl, rfl⟩
  · intro hex
    rw [main_extract_none env args hex]
    exact ⟨rfl, rfl⟩
  · intro t v hex hv htemp
    rcases htemp with h1 | ⟨h1, h2⟩
    · rw [main_unusable env args t v hex hv h1]
      exact ⟨Or.inl rfl, rfl⟩
    · rw [main_expired env args t v hex hv h1 h2]
      exact ⟨Or.inr rfl, rfl⟩
  · intro t v tr1 e hex hv h1 h2 hopa
    rw [main_opa_error env args t v tr1 e hex hv h1 h2 hopa]
    exact ⟨rfl, rfl⟩
  · intro t v tr1 hex hv h1 h2 hopa hdir
    rw [main_caps_not_dir env args t v tr1 hex hv h1 h2 hopa hdir]
    exact ⟨rfl, rfl⟩

/-- Witness for C3 amended at concrete runs: an extraction error (a
non-zero result with its diagnostic) and a missing manifest (diagnostic
but a zero result). -/
theorem c3_failure_paths_diagnostics_and_results_witness :
    ((main envExtractErr argsBase).1 = [Event.eprintExtractError "invalid hash"] ∧
      Outcome.nonZeroEquiv (main envExtractErr argsBase).2.2 = true) ∧
    ((main envNoSig argsBase).1 = [Event.eprintNoSignature] ∧
      Outcome.nonZeroEquiv (main envNoSig argsBase).2.2 = false) ∧
    ((main envNotDir argsBase).2.2
        = Outcome.panicked "Capability plugin location is not a directory." ∧
      Outcome.nonZeroEquiv (main envNotDir argsBase).2.2 = true) :=
  ⟨(c3_failure_paths_diagnostics_and_results envExtractErr argsBase).1 "invalid hash" rfl,
    (c3_failure_paths_diagnostics_and_results envNoSig argsBase).2.1 rfl,
    (c3_failure_paths_diagnostics_and_results envNotDir argsBase).2.2.2.2
      tokenA usableValidation [] rfl rfl rfl rfl rfl rfl⟩

/-- C4 counterexample: an HTTP 201 response — a 2xx status — whose body
decodes to verdict true is rejected with the non-success-status
violation instead of succeeding, because the code compares the status
with exactly 200; so the classification claimed for arbitrary 2xx
statuses is false. -/
theorem c4_counterexample_2xx_not_success :
    env201.send = some { status := 201, text := .ok "allow-true" } ∧
    env201.decode_opa "allow-true" = .ok true ∧
    (check_token_with_opa env201 argsOpa "jwt-a").2
      = .error (WErr.wascapViolation "Open Policy Agent did not return 200 OK") := by
  refine ⟨rfl, rfl, rfl⟩

/-- C4 amended: with a policy URL configured, the check classifies the
response as follows — network/transport failure yields the
transport-failure violation; any status other than exactly 200
(including other 2xx statuses) yields the non-success-status violation;
a 200 response whose decoded verdict is false yields the denial
violation; a 200 response with verdict true yields success. -/
theorem c4_policy_classification (env : Env) (args : Cli) (url jwt : String)
    (hurl : args.opa_url = some url) :
    (env.send = none →
      (check_token_with_opa env args jwt).2 = .error WErr.httpClientFailure) ∧
    (∀ resp raw, env.send = some resp → resp.text = .ok raw → resp.status ≠ 200 →
      (check_token_with_opa env args jwt).2
        = .error (WErr.wascapViolation "Open Policy Agent did not return 200 OK")) ∧
    (∀ resp raw, env.send = some resp → resp.text = .ok raw → resp.status = 200 →
      env.decode_opa raw = .ok false →
      (check_token_with_opa env args jwt).2
        = .error (WErr.wascapViolation "OPA denied this module")) ∧
    (∀ resp raw, env.send = some resp → resp.text = .ok raw → resp.status = 200 →
      env.decode_opa raw = .ok true →
      (check_token_with_opa env args jwt).2 = .ok ()) := by
  refine ⟨?_, ?_, ?_, ?_⟩
  · intro hsend
    simp [check_token_with_opa, hurl, post_json, hsend]
  · intro resp raw hsend htext hstatus
    simp [check_token_with_opa, hurl, post_json, hsend, htext, hstatus]
  · intro resp raw hsend htext hstatus hdec
    simp [check_token_with_opa, hurl, post_json, hsend, htext, hstatus, hdec]
  · intro resp raw hsend htext hstatus hdec
    simp [check_token_with_opa, hurl, post_json, hsend, htext, hstatus, hdec]

/-- Witness for C4 amended at concrete responses: transport failure,
a 500 status, a 200 denial, and a 200 approval. -/
theorem c4_policy_classification_witness :
    ((check_token_with_opa envBase argsOpa "jwt-a").2
        = .error WErr.httpClientFailure) ∧
    ((check_token_with_opa env500 argsOpa "jwt-a").2
        = .error (WErr.wascapViolation "Open Policy Agent did not return 200 OK")) ∧
    ((check_token_with_opa env200Denied argsOpa "jwt-a").2
        = .error (WErr.wascapViolation "OPA denied this module")) ∧
    ((check_token_with_opa env200Allowed argsOpa "jwt-a").2 = .ok ()) :=
  ⟨(c4_policy_classification envBase argsOpa "http://opa.local/v1/data/waxosuit" "jwt-a"
      rfl).1 rfl,
    (c4_policy_classification env500 argsOpa "http://opa.local/v1/data/waxosuit" "jwt-a"
      rfl).2.1 { status := 500, text := .ok "allow-true" } "allow-true" rfl rfl (by decide),
    (c4_policy_classification env200Denied argsOpa "http://opa.local/v1/data/waxosuit" "jwt-a"
      rfl).2.2.1 { status := 200, text := .ok "allow-false" } "allow-false" rfl rfl rfl rfl,
    (c4_policy_classification env200Allowed argsOpa "http://opa.local/v1/data/waxosuit" "jwt-a"
      rfl).2.2.2 { status := 200, text := .ok "allow-true" } "allow-true" rfl rfl rfl rfl⟩

/-- C5: for every validated manifest flagged not yet usable or (when
usable-from is satisfied) expired, the bootstrap ends without starting
the host and the single diagnostic reports exactly the corresponding
instant carried by the validation result — the not-before instant for a
not-yet-usable token, the expiry instant for an expired one. -/
theorem c5_temporal_rejection_reports_exact_instant (env : Env) (args : Cli)
    (t : Token) (v : TokenValidation)
    (hex : env.extract_claims = .ok (some t))
    (hv : env.validate_token = .ok v) :
    (v.cannot_use_yet = true →
      (main env args).1 = [Event.eprintUnusable v.not_before_human] ∧
      Event.hostStarted ∉ (main env args).1) ∧
    (v.cannot_use_yet = false → v.expired = true →
      (main env args).1 = [Event.eprintExpired v.expires_human] ∧
      Event.hostStarted ∉ (main env args).1) := by
  constructor
  · intro h1
    rw [main_unusable env args t v hex hv h1]
    exact ⟨rfl, by simp⟩
  · intro h1 h2
    rw [main_expired env args t v hex hv h1 h2]
    exact ⟨rfl, by simp⟩

/-- Witness for C5 at concrete runs with a not-yet-usable token and an
expired token. -/
theorem c5_temporal_rejection_reports_exact_instant_witness :
    ((main envUnusable argsBase).1
        = [Event.eprintUnusable "2019-06-01 00:00:00 UTC"] ∧
      Event.hostStarted ∉ (main envUnusable argsBase).1) ∧
    ((main envExpired argsBase).1
        = [Event.eprintExpired "2019-07-01 00:00:00 UTC"] ∧
      Event.hostStarted ∉ (main envExpired argsBase).1) :=
  ⟨(c5_temporal_rejection_reports_exact_instant envUnusable argsBase tokenA
      { usableValidation with cannot_use_yet := true } rfl rfl).1 rfl,
    (c5_temporal_rejection_reports_exact_instant envExpired argsBase tokenA
      { usableValidation with expired := true } rfl rfl).2 rfl rfl⟩

/-- C6: when the bootstrap aborts because the token is expired or not
yet usable, the capability registry is left in its initial state — no
manifest recorded, no provider loaded — and the trace contains neither
a publication nor a load attempt. -/
theorem c6_registry_untouched_on_temporal_abort (env : Env) (args : Cli)
    (t : Token) (v : TokenValidation)
    (hex : env.extract_claims = .ok (some t))
    (hv : env.validate_token = .ok v)
    (htemp : v.cannot_use_yet = true ∨ v.expired = true) :
    (main env args).2.1 = capman0 ∧
    (main env args).1.countP Event.isSetClaims = 0 ∧
    (main env args).1.countP Event.isLoadAttempt = 0 := by
  rcases h1 : v.cannot_use_yet
  · have h2 : v.expired = true := by
      rcases htemp with h | h
      · rw [h1] at h; cases h
      · exact h
    rw [main_expired env args t v hex hv h1 h2]
    exact ⟨rfl, rfl, rfl⟩
  · rw [main_unusable env args t v hex hv h1]
    exact ⟨rfl, rfl, rfl⟩

/-- Witness for C6 at a concrete run with an expired token. -/
theorem c6_registry_untouched_on_temporal_abort_witness :
    (main envExpired argsBase).2.1 = capman0 ∧
    (main envExpired argsBase).1.countP Event.isSetClaims = 0 ∧
    (main envExpired argsBase).1.countP Event.isLoadAttempt = 0 :=
  c6_registry_untouched_on_temporal_abort envExpired argsBase tokenA
    { usableValidation with expired := true } rfl rfl (Or.inr rfl)

/-- C9: if a policy URL is configured and the service answers HTTP 200
with a body that does not decode to a boolean allow field, the decode
error is propagated: the run returns that error and the host is never
started — malformed policy responses fail closed. -/
theorem c9_malformed_policy_response_fails_closed (env : Env) (args : Cli)
    (t : Token) (v : TokenValidation) (url : String) (resp : HttpResponse)
    (raw msg : String)
    (hex : env.extract_claims = .ok (some t))
    (hv : env.validate_token = .ok v)
    (h1 : v.cannot_use_yet = false) (h2 : v.expired = false)
    (hurl : args.opa_url = some url)
    (hsend : env.send = some resp)
    (htext : resp.text = .ok raw)
    (hstatus : resp.status = 200)
    (hdec : env.decode_opa raw = .error msg) :
    (main env args).2.2 = Outcome.err (WErr.jsonDecodeFailure msg) ∧
    Event.hostStarted ∉ (main env args).1 := by
  have hopa : check_token_with_opa env args t.jwt
      = ([Event.httpPost url t.jwt], .error (WErr.jsonDecodeFailure msg)) := by
    simp [check_token_with_opa, hurl, post_json, hsend, htext, hstatus, hdec]
  rw [main_opa_error env args t v [Event.httpPost url t.jwt]
    (WErr.jsonDecodeFailure msg) hex hv h1 h2 hopa]
  exact ⟨rfl, by simp⟩

/-- Witness for C9 at a concrete 200 response whose body is not valid
JSON for the expected reply shape. -/
theorem c9_malformed_policy_response_fails_closed_witness :
    (main env200Malformed argsOpa).2.2
      = Outcome.err (WErr.jsonDecodeFailure "invalid type: expected a boolean allow field") ∧
    Event.hostStarted ∉ (main env200Malformed argsOpa).1 :=
  c9_malformed_policy_response_fails_closed env200Malformed argsOpa tokenA
    usableValidation "http://opa.local/v1/data/waxosuit"
    { status := 200, text := .ok "not-json" } "not-json"
    "invalid type: expected a boolean allow field"
    rfl rfl rfl rfl rfl rfl rfl rfl rfl

/-- C10: when validation flags a token both not yet usable and expired,
the not-yet-usable rejection takes precedence — the run emits exactly
the diagnostic carrying the not-before instant, emits no expiry
diagnostic, and never starts the host. -/
theorem c10_unusable_takes_precedence_over_expired (env : Env) (args : Cli)
    (t : Token) (v : TokenValidation)
    (hex : env.extract_claims = .ok (some t))
    (hv : env.validate_token = .ok v)
    (h1 : v.cannot_use_yet = true) ( _h2 : v.expired = true) :
    (main env args).1 = [Event.eprintUnusable v.not_before_human] ∧
    (∀ s, Event.eprintExpired s ∉ (main env args).1) ∧
    Event.hostStarted ∉ (main env args).1 := by
  rw [main_unusable env args t v hex hv h1]
  exact ⟨rfl, by simp, by simp⟩

/-- Witness for C10 at a concrete token flagged both ways. -/
theorem c10_unusable_takes_precedence_over_expired_witness :
    (main envBothFlags argsBase).1
      = [Event.eprintUnusable "2019-06-01 00:00:00 UTC"] ∧
    (∀ s, Event.eprintExpired s ∉ (main envBothFlags argsBase).1) ∧
    Event.hostStarted ∉ (main envBothFlags argsBase).1 :=
  c10_unusable_takes_precedence_over_expired envBothFlags argsBase tokenA
    { usableValidation with cannot_use_yet := true, expired := true } rfl rfl rfl rfl

theorem countP_split {α : Type} (p : α → Bool) :
    ∀ l : List α, l.countP p + l.countP (fun a => !p a) = l.length := by
  intro l
  induction l with
  | nil => rfl
  | cons x xs ih => rcases h : p x <;> simp [List.countP_cons, h] <;> omega

theorem countP_congr_mem {α : Type} (p q : α → Bool) :
    ∀ l : List α, (∀ a ∈ l, p a = q a) → l.countP p = l.countP q := by
  intro l
  induction l with
  | nil => intro _; rfl
  | cons x xs ih =>
    intro h
    simp [List.countP_cons, h x (by simp), ih (fun a ha => h a (by simp [ha]))]

/-- C7: if every entry of the provider directory is a shared-library
file and exactly one of them fails to load, the run ends with a
registry holding one provider fewer than the number of files, exactly
one load failure logged in the trace, and the host started anyway — an
individual provider load failure never aborts the bootstrap. -/
theorem c7_single_load_failure_is_non_fatal (env : Env) (args : Cli)
    (t : Token) (v : TokenValidation) (tr1 : List Event)
    (hex : env.extract_claims = .ok (some t))
    (hv : env.validate_token = .ok v)
    (h1 : v.cannot_use_yet = false) (h2 : v.expired = false)
    (hopa : check_token_with_opa env args t.jwt = (tr1, .ok ()))
    (hdir : env.caps_dir_is_dir = true)
    (hmux : env.start_mux = .ok ())
    (hlib : ∀ e ∈ env.read_dir, isLib e = true)
    (hone : env.read_dir.countP (fun e => !loadOk env e) = 1) :
    (main env args).2.1.providers.length + 1 = env.read_dir.length ∧
    (main env args).1.countP Event.isNotLoaded = 1 ∧
    Event.hostStarted ∈ (main env args).1 := by
  rw [main_success env args t v tr1 hex hv h1 h2 hopa hdir hmux]
  obtain ⟨s1, s2, s3, s4, s5, s6⟩ :=
    scan_entries_counts env env.read_dir { claims := some t.claims, providers := [] }
  have htr1count : tr1.countP Event.isNotLoaded = 0 := by
    have h0 := (opa_trace_counts env args t.jwt).2.1
    rw [hopa] at h0
    exact h0
  have hok : env.read_dir.countP (fun e => isLib e && loadOk env e)
      = env.read_dir.countP (loadOk env) :=
    countP_congr_mem _ _ env.read_dir (fun a ha => by rw [hlib a ha]; simp)
  have hbad : env.read_dir.countP (fun e => isLib e && !loadOk env e)
      = env.read_dir.countP (fun e => !loadOk env e) :=
    countP_congr_mem _ _ env.read_dir (fun a ha => by rw [hlib a ha]; simp)
  have hsplit := countP_split (loadOk env) env.read_dir
  refine ⟨?_, ?_, ?_⟩
  · have h4 : (scan_entries env { claims := some t.claims, providers := [] }
        env.read_dir).2.providers.length
        = env.read_dir.countP (fun e => isLib e && loadOk env e) := by
      rw [s4]
      simp
    simp only [h4, hok]
    omega
  · simp only [List.countP_append, List.countP_cons, htr1count, s2, hbad, hone,
      Event.isNotLoaded, List.countP_nil]
    rfl
  · simp

/-- Witness for C7 at a concrete directory of three library files with
one bad one: two providers load, one failure is logged, the host
starts. -/
theorem c7_single_load_failure_is_non_fatal_witness :
    (main envScanOneBad argsBase).2.1.providers.length + 1
        = envScanOneBad.read_dir.length ∧
    (main envScanOneBad argsBase).1.countP Event.isNotLoaded = 1 ∧
    Event.hostStarted ∈ (main envScanOneBad argsBase).1 :=
  c7_single_load_failure_is_non_fatal envScanOneBad argsBase tokenA
    usableValidation [] rfl rfl rfl rfl rfl rfl rfl (by decide) (by decide)

/-- C8 counterexample: scanning a directory holding one valid provider
library and one non-library file attempts exactly one load but logs no
skip/ignore message at all — the non-library file falls into the empty
match arm and is skipped silently, so the claimed single logged skip
message does not exist. -/
theorem c8_counterexample_no_skip_message_logged :
    (scan_entries envScanMixed capman0 envScanMixed.read_dir).1.countP
        Event.isLoadAttempt = 1 ∧
    ¬ (scan_entries envScanMixed capman0 envScanMixed.read_dir).1.countP
        Event.isLogSkip = 1 := by
  exact ⟨by decide, by decide⟩

/-- C8 amended: a provider-directory scan over one shared-library file
and one non-directory, non-library file attempts exactly one provider
load and emits no skip/ignore message: the non-library file is ignored
silently. -/
theorem c8_mixed_directory_one_load_silent_skip (env : Env) (cm : CapMan)
    (e1 e2 : DirEntry)
    (hdir : env.read_dir = [e1, e2])
    (hlib1 : isLib e1 = true)
    ( _hfile2 : e2.isDir = false)
    (hnotlib2 : isLib e2 = false) :
    (scan_entries env cm env.read_dir).1.countP Event.isLoadAttempt = 1 ∧
    (scan_entries env cm env.read_dir).1.countP Event.isLogSkip = 0 := by
  obtain ⟨s1, -, s3, -, -, -⟩ := scan_entries_counts env env.read_dir cm
  refine ⟨?_, s3⟩
  rw [s1, hdir]
  simp [List.countP_cons, hlib1, hnotlib2]

/-- Witness for C8 amended at the concrete mixed directory. -/
theorem c8_mixed_directory_one_load_silent_skip_witness :
    (scan_entries envScanMixed capman0 envScanMixed.read_dir).1.countP
        Event.isLoadAttempt = 1 ∧
    (scan_entries envScanMixed capman0 envScanMixed.read_dir).1.countP
        Event.isLogSkip = 0 :=
  c8_mixed_directory_one_load_silent_skip envScanMixed capman0
    { path := "caps/messaging.so", isDir := false, extension := some "so" }
    { path := "caps/readme.md", isDir := false, extension := some "md" }
    rfl (by decide) rfl (by decide)

end Waxosuit
